import Mathlib

/-!
Shallow embedding of the live-connection layer of the chat server
(`src/config/socket.js`), its mongoose message/group schemas
(`src/routes/users.js` message schema, `src/models/Group.js`) and the
group REST routes used by the member-removal paths
(`src/unnamed/part_002`).  Ids (user ids, group ids, socket ids) are
modelled as strings; the durable stores as lists; async persistence
calls carry an explicit `dbOk` flag recording whether the write
succeeded.  Socket handlers that matter for the ordering claims are
embedded as traces of `Action`s (saves and emits in program order);
the rest return their resulting state together with the list of
emitted events.
-/

namespace Chat

/-- The mongoose message document. `receiver` and `group` default to
null, `messageType` to "text"; the schema trims `content` on set. -/
structure Message where
  sender : String
  receiver : Option String := none
  content : String
  messageType : String := "text"
  isRead : Bool := false
  readAt : Option Nat := none
  group : Option String := none
deriving DecidableEq, Repr

/-- The mongoose group document (`src/models/Group.js`). -/
structure Group where
  id : String
  name : String
  members : List String
  admins : List String
deriving DecidableEq, Repr

/-- The in-memory `onlineUsers` JS Map (userId -> socketId), in
insertion order. -/
abbrev OnlineUsers := List (String × String)

/-- `onlineUsers.get(k)`. -/
def ouGet (ou : OnlineUsers) (k : String) : Option String :=
  (ou.find? (fun p => p.1 == k)).map Prod.snd

/-- `onlineUsers.set(k, v)`: a JS Map updates an existing key in place
and appends a fresh one. -/
def ouSet (ou : OnlineUsers) (k v : String) : OnlineUsers :=
  if (ouGet ou k).isSome then ou.map (fun p => if p.1 == k then (k, v) else p)
  else ou ++ [(k, v)]

/-- `onlineUsers.delete(k)`. -/
def ouDelete (ou : OnlineUsers) (k : String) : OnlineUsers :=
  ou.filter (fun p => p.1 != k)

/-- `Array.from(onlineUsers.keys())`. -/
def ouKeys (ou : OnlineUsers) : List String :=
  ou.map Prod.fst

/-- JS `String.prototype.trim` (the mongoose schema trim): strip
whitespace from both ends. -/
def trimWS (s : String) : String :=
  ⟨((s.data.dropWhile Char.isWhitespace).reverse.dropWhile Char.isWhitespace).reverse⟩

/-- Outbound socket events emitted by the handlers. -/
inductive Emit where
  | receiveMessage (socketId : String) (m : Message)
  | sentMessage (m : Message)
  | errorSignal (msg : String)
  | receiveGroupMessage (room : String) (m : Message)
  | messagesRead (socketId : String) (readBy : String)
  | onlineUsersList (ids : List String)
  | connectionSuccess (msg userId username : String)
deriving DecidableEq, Repr

/-- Who an emitted event reaches. -/
inductive Scope where
  | origin
  | toSocket (socketId : String)
  | toRoom (room : String)
  | all
deriving DecidableEq, Repr

/-- The delivery scope of each event as the source emits it:
`socket.emit` reaches only the originating connection, `io.to(sid)`
one socket, `io.to(room)` a room, `io.emit` every connected client. -/
def Emit.scope : Emit → Scope
  | .receiveMessage sid _ => .toSocket sid
  | .sentMessage _ => .origin
  | .errorSignal _ => .origin
  | .receiveGroupMessage r _ => .toRoom r
  | .messagesRead sid _ => .toSocket sid
  | .onlineUsersList _ => .all
  | .connectionSuccess _ _ _ => .all

/-- Direct-message delivery event (`receive-message`). -/
def Emit.isDelivery : Emit → Bool
  | .receiveMessage _ _ => true
  | _ => false

/-- Sender confirmation echo (`sent-message`). -/
def Emit.isEcho : Emit → Bool
  | .sentMessage _ => true
  | _ => false

/-- Group broadcast event (`receive-group-messsage`). -/
def Emit.isGroupBroadcast : Emit → Bool
  | .receiveGroupMessage _ _ => true
  | _ => false

/-- Any fan-out event of a message intent: delivery, echo or group
broadcast. -/
def Emit.isFanout (e : Emit) : Bool :=
  e.isDelivery || e.isEcho || e.isGroupBroadcast

/-- One step of a handler body, in program order: a durable save
attempt (with its outcome) or a socket emit. -/
inductive Action where
  | save (m : Message) (ok : Bool)
  | emit (e : Emit)
deriving DecidableEq, Repr

/-- The events a trace emits, in order. -/
def emitsOf (t : List Action) : List Emit :=
  t.filterMap (fun a => match a with | .emit e => some e | _ => none)

/-- The message record a trace durably persisted, if any. -/
def persisted (t : List Action) : Option Message :=
  t.findSome? (fun a => match a with | .save m true => some m | _ => none)

/-- Whether an action is a fan-out emit. -/
def Action.isFanout : Action → Bool
  | .emit e => e.isFanout
  | _ => false

/-- Whether an action is a successful durable save. -/
def Action.isSaveOk : Action → Bool
  | .save _ ok => ok
  | _ => false

def persistPrecedesFanoutGo : List Action → Bool → Bool
  | [], _ => true
  | a :: t, seen =>
    if a.isFanout && !seen then false
    else persistPrecedesFanoutGo t (seen || a.isSaveOk)

/-- Every fan-out emit in the trace is preceded by a successful durable
save. -/
def persistPrecedesFanout (t : List Action) : Bool :=
  persistPrecedesFanoutGo t false

/-- `messageType` enum of the message schema. -/
def validMessageType (t : String) : Bool :=
  t == "text" || t == "image" || t == "file"

/-- Mongoose validation run by `message.save()`: `content` is required
(the schema's trim has already been applied at construction, so an
all-whitespace input is empty here) and `messageType` must be in the
enum. -/
def Message.validates (m : Message) : Bool :=
  m.content != "" && validMessageType m.messageType

/-- Outcome of `await message.save()`: the write lands iff validation
passes and the store write itself succeeds (`dbOk`). -/
def Message.saveOk (m : Message) (dbOk : Bool) : Bool :=
  dbOk && m.validates

/-- Payload of the `send-message` inbound signal. -/
structure SendMessageData where
  receiverId : Option String := none
  content : String := ""
  messageType : Option String := none
deriving DecidableEq, Repr

/-- The `new Message({sender, receiver: receiverId, content,
messageType: messageType || "text"})` built by the send-message
handler; the schema trims content and defaults an absent receiver to
null. -/
def newDirectMessage (senderUserId : String) (d : SendMessageData) : Message :=
  { sender := senderUserId
    receiver := d.receiverId
    content := trimWS d.content
    messageType := d.messageType.getD "text" }

/-- The `socket.on("send-message")` handler as a trace: save, then on
success deliver to the receiver's socket if online and echo
`sent-message` to the sender; on any failure the catch emits one
scoped error. The populate steps only decorate the saved record with
profile fields and are not modelled. -/
def sendMessageHandler (ou : OnlineUsers) (senderUserId : String)
    (dbOk : Bool) (d : SendMessageData) : List Action :=
  let m := newDirectMessage senderUserId d
  if m.saveOk dbOk then
    Action.save m true ::
      ((match d.receiverId with
        | some rid =>
          match ouGet ou rid with
          | some sid => [Action.emit (.receiveMessage sid m)]
          | none => []
        | none => []) ++ [Action.emit (.sentMessage m)])
  else
    [Action.save m false, Action.emit (.errorSignal "Failed to send message")]

/-- Payload of the `send-group-message` inbound signal. -/
structure SendGroupMessageData where
  groupId : String
  content : String := ""
  messageType : Option String := none
deriving DecidableEq, Repr

/-- The `new Message({sender, group: groupId, content, messageType:
messageType || "text"})` built by the group handler. -/
def newGroupMessage (senderUserId : String) (d : SendGroupMessageData) : Message :=
  { sender := senderUserId
    group := some d.groupId
    content := trimWS d.content
    messageType := d.messageType.getD "text" }

/-- `Group.findById` over the persisted group store. -/
def findGroup (groups : List Group) (gid : String) : Option Group :=
  groups.find? (fun g => g.id == gid)

/-- The `socket.on("send-group-message")` handler as a trace: look the
group up in the persisted Group store, reject a missing group or a
non-member sender with a scoped error, otherwise save and on success
broadcast once to the group's room. -/
def sendGroupMessageHandler (groups : List Group) (senderUserId : String)
    (dbOk : Bool) (d : SendGroupMessageData) : List Action :=
  match findGroup groups d.groupId with
  | none => [Action.emit (.errorSignal "Group not found")]
  | some g =>
    if g.members.contains senderUserId then
      let m := newGroupMessage senderUserId d
      if m.saveOk dbOk then
        [Action.save m true, Action.emit (.receiveGroupMessage d.groupId m)]
      else
        [Action.save m false, Action.emit (.errorSignal "Failed to send message")]
    else
      [Action.emit (.errorSignal "You are not a member of this group")]

/-- Payload of the `mark-read` inbound signal. -/
structure MarkReadData where
  senderId : String
deriving DecidableEq, Repr

/-- The `Message.updateMany` filter of the mark-read handler: sender is
the supplied senderId, receiver is the invoking connection's identity,
and the message is still unread. -/
def markReadFilter (senderId readerUserId : String) (m : Message) : Bool :=
  m.sender == senderId && m.receiver == some readerUserId && m.isRead == false

/-- The update document `{isRead: true, readAt: new Date()}`. -/
def markAsRead (now : Nat) (m : Message) : Message :=
  { m with isRead := true, readAt := some now }

/-- `Message.updateMany(filter, update)` over the message store. -/
def updateManyAsRead (senderId readerUserId : String) (now : Nat)
    (msgs : List Message) : List Message :=
  msgs.map (fun m => if markReadFilter senderId readerUserId m then markAsRead now m else m)

/-- The `socket.on("mark-read")` handler: bulk-update, then notify the
counterpart's socket (if online) with only the reader's identity; the
catch on failure only logs and emits nothing. -/
def markReadHandler (ou : OnlineUsers) (readerUserId : String) (dbOk : Bool)
    (now : Nat) (d : MarkReadData) (msgs : List Message) :
    List Message × List Emit :=
  if dbOk then
    (updateManyAsRead d.senderId readerUserId now msgs,
      match ouGet ou d.senderId with
      | some sid => [.messagesRead sid readerUserId]
      | none => [])
  else
    (msgs, [])

/-- Result of the disconnect handler. -/
structure DisconnectResult where
  onlineUsersAfter : OnlineUsers
  offlineWriteApplied : Bool
  emits : List Emit
  unhandledRejection : Bool
deriving DecidableEq, Repr

/-- The `socket.on("disconnect")` handler: delete the presence entry,
await the durable offline+lastSeen write, then rebroadcast the online
set.  The handler has no try/catch, so a failed write rejects the
async callback: the rebroadcast is skipped and the rejection escapes
to the process-level `unhandledRejection` logger. -/
def disconnectHandler (ou : OnlineUsers) (userId : String) (dbOk : Bool) :
    DisconnectResult :=
  let ou2 := ouDelete ou userId
  if dbOk then
    { onlineUsersAfter := ou2
      offlineWriteApplied := true
      emits := [.onlineUsersList (ouKeys ou2)]
      unhandledRejection := false }
  else
    { onlineUsersAfter := ou2
      offlineWriteApplied := false
      emits := []
      unhandledRejection := true }

/-- Result of the socket leave-group handler. -/
structure LeaveGroupResult where
  groupsAfter : List Group
  leftRoom : Bool
  emits : List Emit
  unhandledRejection : Bool
deriving DecidableEq, Repr

/-- `$pull: {members: userId}` on one group document. -/
def pullMember (userId : String) (g : Group) : Group :=
  { g with members := g.members.filter (fun x => x != userId) }

/-- The `socket.on("leave-group")` handler: a bare
`findByIdAndUpdate($pull members)` then `socket.leave`.  No try/catch
and no emits: a failed update rejects the callback (process-level
logging), skipping the room-leave; admins and messages are never
touched and the group is never deleted. -/
def leaveGroupHandler (groups : List Group) (userId : String) (dbOk : Bool)
    (groupId : String) : LeaveGroupResult :=
  if dbOk then
    { groupsAfter := groups.map (fun g => if g.id == groupId then pullMember userId g else g)
      leftRoom := true
      emits := []
      unhandledRejection := false }
  else
    { groupsAfter := groups
      leftRoom := false
      emits := []
      unhandledRejection := true }

/-- The emit sequence of the connection handler after a successful
handshake: register presence, `io.emit("online-users", ...)`, and — at
the end of the handler body — `io.emit("connection-success", ...)`,
both broadcast to every connected client. Room joins and the online
flag write do not emit and are not shown. -/
def connectionHandler (ou : OnlineUsers) (userId username socketId : String) :
    OnlineUsers × List Emit :=
  let ou2 := ouSet ou userId socketId
  (ou2,
    [.onlineUsersList (ouKeys ou2),
     .connectionSuccess "Successfully connected to the socket server" userId username])

/-- Result of a group REST route: the stores after the call and the
HTTP status. -/
structure RouteResult where
  groupsAfter : List Group
  messagesAfter : List Message
  status : Nat
deriving DecidableEq, Repr

/-- `DELETE /:groupId/members/:memberId` guarded by `canRemoveMember`:
404 if the group is missing, 403 if the requester is not an admin, 400
if the target is not a member or is an admin ("Cannot remove admin"),
otherwise filter the target out of the members and save. -/
def removeMemberRoute (groups : List Group) (msgs : List Message)
    (requesterId groupId memberId : String) : RouteResult :=
  match findGroup groups groupId with
  | none => ⟨groups, msgs, 404⟩
  | some g =>
    if !(g.admins.contains requesterId) then ⟨groups, msgs, 403⟩
    else if !(g.members.contains memberId) then ⟨groups, msgs, 400⟩
    else if g.admins.contains memberId then ⟨groups, msgs, 400⟩
    else
      ⟨groups.map (fun h =>
          if h.id == groupId then { h with members := h.members.filter (fun x => x != memberId) } else h),
        msgs, 200⟩

/-- `POST /:groupId/leave` guarded by `groupExists` and
`isGroupMember`: filter the user out of members and admins; if no
admin is left and members remain, push the first remaining member as
admin; if no member is left, delete the group and all its messages;
otherwise save the updated group. -/
def leaveGroupRoute (groups : List Group) (msgs : List Message)
    (userId groupId : String) : RouteResult :=
  match findGroup groups groupId with
  | none => ⟨groups, msgs, 404⟩
  | some g =>
    if !(g.members.contains userId) then ⟨groups, msgs, 403⟩
    else
      let members2 := g.members.filter (fun x => x != userId)
      let admins2 := g.admins.filter (fun x => x != userId)
      let admins3 :=
        match admins2, members2 with
        | [], m :: _ => [m]
        | _, _ => admins2
      match members2 with
      | [] =>
        ⟨groups.filter (fun h => h.id != groupId),
          msgs.filter (fun m => m.group != some groupId), 200⟩
      | _ :: _ =>
        ⟨groups.map (fun h =>
            if h.id == groupId then { h with members := members2, admins := admins3 } else h),
          msgs, 200⟩

/-- A persisted message record targets exactly one of a receiver or a
group. -/
def exactlyOneTarget (m : Message) : Bool :=
  m.receiver.isSome ^^ m.group.isSome

/-- The dispatch discipline of a handler trace: fan-out only after a
successful save, a failed save yields exactly one scoped error emit,
fan-out happens only when a record was persisted, each fan-out kind is
attempted at most once, and every non-fan-out emit is scoped to the
originating connection. -/
def intentDispatchOk (t : List Action) : Prop :=
  persistPrecedesFanout t = true ∧
  ((∃ m, Action.save m false ∈ t) →
    emitsOf t = [Emit.errorSignal "Failed to send message"]) ∧
  (∀ e ∈ emitsOf t, e.isFanout = true → persisted t ≠ none) ∧
  (emitsOf t).countP Emit.isDelivery ≤ 1 ∧
  (emitsOf t).countP Emit.isEcho ≤ 1 ∧
  (emitsOf t).countP Emit.isGroupBroadcast ≤ 1 ∧
  (∀ e ∈ emitsOf t, e.isFanout = false → e.scope = Scope.origin)

lemma direct_dispatch_spec (ou : OnlineUsers) (uid : String) (dbOk : Bool)
    (d : SendMessageData) : intentDispatchOk (sendMessageHandler ou uid dbOk d) := by
  unfold intentDispatchOk sendMessageHandler
  by_cases hs : (newDirectMessage uid d).saveOk dbOk
  · rcases hr : d.receiverId with _ | rid
    · simp [hs, hr, persistPrecedesFanout, persistPrecedesFanoutGo, Action.isFanout,
        Action.isSaveOk, emitsOf, persisted, Emit.isFanout, Emit.isDelivery, Emit.isEcho,
        Emit.isGroupBroadcast, Emit.scope]
    · rcases ho : ouGet ou rid with _ | sid <;>
        simp [hs, hr, ho, persistPrecedesFanout, persistPrecedesFanoutGo, Action.isFanout,
          Action.isSaveOk, emitsOf, persisted, Emit.isFanout, Emit.isDelivery, Emit.isEcho,
          Emit.isGroupBroadcast, Emit.scope]
  · simp [hs, persistPrecedesFanout, persistPrecedesFanoutGo, Action.isFanout,
      Action.isSaveOk, emitsOf, persisted, Emit.isFanout, Emit.isDelivery, Emit.isEcho,
      Emit.isGroupBroadcast, Emit.scope]

lemma group_dispatch_spec (groups : List Group) (uid : String) (dbOk : Bool)
    (d : SendGroupMessageData) :
    intentDispatchOk (sendGroupMessageHandler groups uid dbOk d) := by
  unfold intentDispatchOk sendGroupMessageHandler
  rcases hg : findGroup groups d.groupId with _ | g
  · simp [persistPrecedesFanout, persistPrecedesFanoutGo, Action.isFanout, Action.isSaveOk,
      emitsOf, persisted, Emit.isFanout, Emit.isDelivery, Emit.isEcho, Emit.isGroupBroadcast,
      Emit.scope]
  · by_cases hm : uid ∈ g.members
    · by_cases hs : (newGroupMessage uid d).saveOk dbOk <;>
        simp [hm, hs, persistPrecedesFanout, persistPrecedesFanoutGo, Action.isFanout,
          Action.isSaveOk, emitsOf, persisted, Emit.isFanout, Emit.isDelivery, Emit.isEcho,
          Emit.isGroupBroadcast, Emit.scope]
    · simp [hm, persistPrecedesFanout, persistPrecedesFanoutGo, Action.isFanout,
        Action.isSaveOk, emitsOf, persisted, Emit.isFanout, Emit.isDelivery, Emit.isEcho,
        Emit.isGroupBroadcast, Emit.scope]

/-- C1: For every message intent (direct or group) handled over a live
connection, the durable write completes successfully before any
delivery, echo, or broadcast event is emitted; if the write fails, no
fan-out of any kind occurs and a scoped error signal is emitted only
to the originating connection, and fan-out is never attempted twice
for one intent. -/
theorem c1_persistence_precedes_fanout (ou : OnlineUsers) (groups : List Group)
    (uid : String) (dbOk : Bool) (d : SendMessageData) (dg : SendGroupMessageData) :
    ∀ t ∈ [sendMessageHandler ou uid dbOk d, sendGroupMessageHandler groups uid dbOk dg],
      intentDispatchOk t := by
  intro t ht
  rcases List.mem_pair.mp ht with rfl | rfl
  · exact direct_dispatch_spec ou uid dbOk d
  · exact group_dispatch_spec groups uid dbOk dg

/-- Witness for C1 at a concrete direct and group intent. -/
theorem c1_persistence_precedes_fanout_witness :
    intentDispatchOk
      (sendMessageHandler [("b", "sb")] "a" true
        { receiverId := some "b", content := "hi" }) :=
  c1_persistence_precedes_fanout [("b", "sb")] [] "a" true
    { receiverId := some "b", content := "hi" } { groupId := "g1" }
    (sendMessageHandler [("b", "sb")] "a" true { receiverId := some "b", content := "hi" })
    (List.mem_cons_self _ _)

/-- C2: A send-group-message intent whose sender is not a member of
the target group as recorded in the persisted Group store delivers a
single error signal only to the originating connection, persists no
message record and performs no fan-out; the check consults the
persisted Group entity. -/
theorem c2_nonmember_group_message_rejected (groups : List Group) (uid : String)
    (dbOk : Bool) (d : SendGroupMessageData) (g : Group)
    (hg : findGroup groups d.groupId = some g)
    (hm : g.members.contains uid = false) :
    sendGroupMessageHandler groups uid dbOk d =
      [Action.emit (.errorSignal "You are not a member of this group")] ∧
    persisted (sendGroupMessageHandler groups uid dbOk d) = none ∧
    ∀ e ∈ emitsOf (sendGroupMessageHandler groups uid dbOk d),
      e.isFanout = false ∧ e.scope = Scope.origin := by
  have hm2 : uid ∉ g.members := by simpa using hm
  refine ⟨?_, ?_, ?_⟩
  · simp [sendGroupMessageHandler, hg, hm2]
  · simp [sendGroupMessageHandler, hg, hm2, persisted]
  · intro e he
    simp [sendGroupMessageHandler, hg, hm2, emitsOf] at he
    subst he
    exact ⟨rfl, rfl⟩

/-- Witness for C2: a non-member sender is rejected with only a scoped
error. -/
theorem c2_nonmember_group_message_rejected_witness :
    findGroup [⟨"g1", "G", ["a"], ["a"]⟩] "g1" = some ⟨"g1", "G", ["a"], ["a"]⟩ ∧
    (⟨"g1", "G", ["a"], ["a"]⟩ : Group).members.contains "d" = false ∧
    sendGroupMessageHandler [⟨"g1", "G", ["a"], ["a"]⟩] "d" true { groupId := "g1", content := "hi" } =
      [Action.emit (.errorSignal "You are not a member of this group")] :=
  ⟨by decide, by decide,
    (c2_nonmember_group_message_rejected [⟨"g1", "G", ["a"], ["a"]⟩] "d" true
      { groupId := "g1", content := "hi" } ⟨"g1", "G", ["a"], ["a"]⟩
      (by decide) (by decide)).1⟩

/-- C6: After the mark-read bulk update, if the counterpart has a live
presence entry, exactly one messages-read notification carrying only
the reader's identity goes to the counterpart's socket, regardless of
how many records were updated (the emitted events do not depend on the
message store at all, so zero updates included); if the counterpart is
absent, no notification is attempted and the update is still applied. -/
theorem c6_mark_read_notification (ou : OnlineUsers) (uid : String) (now : Nat)
    (d : MarkReadData) (msgs : List Message) :
    (∀ sid, ouGet ou d.senderId = some sid →
      (markReadHandler ou uid true now d msgs).2 = [Emit.messagesRead sid uid]) ∧
    (ouGet ou d.senderId = none →
      (markReadHandler ou uid true now d msgs).2 = []) ∧
    (markReadHandler ou uid true now d msgs).1 = updateManyAsRead d.senderId uid now msgs ∧
    (markReadHandler ou uid true now d msgs).2 = (markReadHandler ou uid true now d []).2 := by
  refine ⟨?_, ?_, ?_, ?_⟩
  · intro sid hsid
    simp [markReadHandler, hsid]
  · intro hnone
    simp [markReadHandler, hnone]
  · simp [markReadHandler]
  · rcases h : ouGet ou d.senderId with _ | sid <;> simp [markReadHandler, h]

/-- Witness for C6 with an online counterpart and an empty message
store (zero records updated). -/
theorem c6_mark_read_notification_witness :
    ouGet [("a", "sa")] "a" = some "sa" ∧
    (markReadHandler [("a", "sa")] "b" true 5 ⟨"a"⟩ []).2 = [Emit.messagesRead "sa" "b"] :=
  ⟨by decide, (c6_mark_read_notification [("a", "sa")] "b" 5 ⟨"a"⟩ []).1 "sa" (by decide)⟩

/-- C7: A direct message intent whose content is empty (after the
schema trim) fails mongoose validation at the save: nothing is
persisted, and the only emitted event is the scoped error to the
originating connection — no delivery, no echo. -/
theorem c7_empty_content_rejected (ou : OnlineUsers) (uid : String) (dbOk : Bool)
    (d : SendMessageData) (h : trimWS d.content = "") :
    sendMessageHandler ou uid dbOk d =
      [Action.save (newDirectMessage uid d) false,
        Action.emit (.errorSignal "Failed to send message")] ∧
    persisted (sendMessageHandler ou uid dbOk d) = none ∧
    ∀ e ∈ emitsOf (sendMessageHandler ou uid dbOk d),
      e.isFanout = false ∧ e.scope = Scope.origin := by
  have hv : (newDirectMessage uid d).saveOk dbOk = false := by
    simp [Message.saveOk, Message.validates, newDirectMessage, h]
  refine ⟨?_, ?_, ?_⟩
  · simp [sendMessageHandler, hv]
  · simp [sendMessageHandler, hv, persisted]
  · intro e he
    simp [sendMessageHandler, hv, emitsOf] at he
    subst he
    exact ⟨rfl, rfl⟩

/-- Witness for C7: whitespace-only content is rejected without
persistence or fan-out. -/
theorem c7_empty_content_rejected_witness :
    trimWS "   " = "" ∧
    sendMessageHandler [("b", "sb")] "a" true { receiverId := some "b", content := "   " } =
      [Action.save (newDirectMessage "a" { receiverId := some "b", content := "   " }) false,
        Action.emit (.errorSignal "Failed to send message")] :=
  ⟨by decide,
    (c7_empty_content_rejected [("b", "sb")] "a" true
      { receiverId := some "b", content := "   " } (by decide)).1⟩

/-- C9: After every successful handshake the connection handler emits
the one-time connection-success event (carrying the message, the new
user's userId and username) via `io.emit`, i.e. broadcast to every
currently connected client, not only the new connection. -/
theorem c9_connection_success_broadcast (ou : OnlineUsers) (uid uname sid : String) :
    (connectionHandler ou uid uname sid).2 =
      [Emit.onlineUsersList (ouKeys (ouSet ou uid sid)),
        Emit.connectionSuccess "Successfully connected to the socket server" uid uname] ∧
    (Emit.connectionSuccess "Successfully connected to the socket server" uid uname).scope =
      Scope.all ∧
    Scope.all ≠ Scope.origin :=
  ⟨rfl, rfl, by decide⟩

/-- Witness for C9 at a concrete connection. -/
theorem c9_connection_success_broadcast_witness :
    (connectionHandler [] "u1" "alice" "s1").2 =
      [Emit.onlineUsersList (ouKeys (ouSet [] "u1" "s1")),
        Emit.connectionSuccess "Successfully connected to the socket server" "u1" "alice"] ∧
    (Emit.connectionSuccess "Successfully connected to the socket server" "u1" "alice").scope =
      Scope.all ∧
    Scope.all ≠ Scope.origin :=
  c9_connection_success_broadcast [] "u1" "alice" "s1"

/-- C10: The mark-read bulk update modifies exactly the persisted
messages matching its filter (sender is the supplied senderId,
receiver is the invoking connection's identity, unread); every other
message — in particular every message addressed to a different user —
is unchanged. -/
theorem c10_mark_read_frame (ou : OnlineUsers) (s uid : String) (now : Nat)
    (msgs : List Message) :
    List.Forall₂ (fun m m2 =>
        (markReadFilter s uid m = true → m2 = markAsRead now m) ∧
        (markReadFilter s uid m = false → m2 = m) ∧
        (m.receiver ≠ some uid → m2 = m))
      msgs ((markReadHandler ou uid true now ⟨s⟩ msgs).1) := by
  have key : ∀ ms : List Message,
      List.Forall₂ (fun m m2 =>
          (markReadFilter s uid m = true → m2 = markAsRead now m) ∧
          (markReadFilter s uid m = false → m2 = m) ∧
          (m.receiver ≠ some uid → m2 = m))
        ms (updateManyAsRead s uid now ms) := by
    intro ms
    induction ms with
    | nil => exact List.Forall₂.nil
    | cons m t ih =>
      rw [updateManyAsRead, List.map_cons]
      refine List.Forall₂.cons ?_ ih
      by_cases hf : markReadFilter s uid m = true
      · refine ⟨fun _ => by rw [if_pos hf], fun hc => absurd hf (by simp [hc]), fun hr => ?_⟩
        have hrec : m.receiver = some uid := by
          simp only [markReadFilter, Bool.and_eq_true, beq_iff_eq] at hf
          exact hf.1.2
        exact absurd hrec hr
      · exact ⟨fun hc => absurd hc hf, fun _ => by rw [if_neg hf], fun _ => by rw [if_neg hf]⟩
  have h1 : (markReadHandler ou uid true now ⟨s⟩ msgs).1 = updateManyAsRead s uid now msgs := by
    simp [markReadHandler]
  rw [h1]
  exact key msgs

/-- Witness for C10: a message addressed to a different user is left
unchanged while a matching one is marked. -/
theorem c10_mark_read_frame_witness :
    List.Forall₂ (fun m m2 =>
        (markReadFilter "a" "b" m = true → m2 = markAsRead 5 m) ∧
        (markReadFilter "a" "b" m = false → m2 = m) ∧
        (m.receiver ≠ some "b" → m2 = m))
      [{ sender := "a", receiver := some "b", content := "x" },
        { sender := "a", receiver := some "c", content := "y" }]
      ((markReadHandler [] "b" true 5 ⟨"a"⟩
        [{ sender := "a", receiver := some "b", content := "x" },
          { sender := "a", receiver := some "c", content := "y" }]).1) :=
  c10_mark_read_frame [] "a" "b" 5
    [{ sender := "a", receiver := some "b", content := "x" },
      { sender := "a", receiver := some "c", content := "y" }]

/-- C3 counterexample: with a failing durable offline write, the
disconnect handler removes the presence entry but emits no
online-identity rebroadcast at all — the unguarded await skips the
rest of the callback — refuting the claim that the whole cleanup,
rebroadcast included, executes even if the durable write fails. -/
theorem c3_disconnect_counterexample :
    (disconnectHandler [("u1", "s1"), ("u2", "s2")] "u1" false).emits = [] ∧
    (disconnectHandler [("u1", "s1"), ("u2", "s2")] "u1" false).onlineUsersAfter =
      [("u2", "s2")] ∧
    (disconnectHandler [("u1", "s1"), ("u2", "s2")] "u1" false).offlineWriteApplied = false ∧
    (disconnectHandler [("u1", "s1"), ("u2", "s2")] "u1" false).unhandledRejection = true := by
  decide

/-- C3 amended: on every disconnect the presence entry is removed and
the durable offline write is issued; when the write succeeds the
updated online-identity set is rebroadcast to every live connection;
when the write fails the rebroadcast is skipped and the failure
escapes as an unhandled rejection (logged at process level, surfaced
to no client) — the presence removal itself is unconditional. -/
theorem c3_disconnect_cleanup (ou : OnlineUsers) (uid : String) (dbOk : Bool) :
    (disconnectHandler ou uid dbOk).onlineUsersAfter = ouDelete ou uid ∧
    (dbOk = true →
      (disconnectHandler ou uid dbOk).offlineWriteApplied = true ∧
      (disconnectHandler ou uid dbOk).emits =
        [Emit.onlineUsersList (ouKeys (ouDelete ou uid))] ∧
      (Emit.onlineUsersList (ouKeys (ouDelete ou uid))).scope = Scope.all) ∧
    (dbOk = false →
      (disconnectHandler ou uid dbOk).offlineWriteApplied = false ∧
      (disconnectHandler ou uid dbOk).emits = [] ∧
      (disconnectHandler ou uid dbOk).unhandledRejection = true) := by
  cases dbOk <;> simp [disconnectHandler, Emit.scope]

/-- Witness for the amended C3 on a successful write. -/
theorem c3_disconnect_cleanup_witness :
    (disconnectHandler [("u1", "s1"), ("u2", "s2")] "u1" true).offlineWriteApplied = true ∧
    (disconnectHandler [("u1", "s1"), ("u2", "s2")] "u1" true).emits =
      [Emit.onlineUsersList (ouKeys (ouDelete [("u1", "s1"), ("u2", "s2")] "u1"))] ∧
    (Emit.onlineUsersList (ouKeys (ouDelete [("u1", "s1"), ("u2", "s2")] "u1"))).scope =
      Scope.all :=
  (c3_disconnect_cleanup [("u1", "s1"), ("u2", "s2")] "u1" true).2.1 rfl

/-- C4 counterexample: a persistence failure inside the leave-group
handler (which has no try/catch) and inside the mark-read handler
(whose catch only logs) produces no error signal whatsoever — refuting
the claim that every handler error is converted into an error signal
delivered to the originating connection. -/
theorem c4_handler_error_counterexample :
    (leaveGroupHandler [⟨"g1", "G", ["u1"], ["u1"]⟩] "u1" false "g1").emits = [] ∧
    (leaveGroupHandler [⟨"g1", "G", ["u1"], ["u1"]⟩] "u1" false "g1").unhandledRejection =
      true ∧
    (markReadHandler [("a", "sa")] "u1" false 0 ⟨"a"⟩
      [{ sender := "a", receiver := some "u1", content := "x" }]).2 = [] := by
  decide

/-- C4 amended: the send-message and send-group-message handlers catch
persistence failures at the handler boundary and emit exactly one
error signal scoped to the originating connection; the mark-read
handler catches failures but only logs them (no signal to anyone, no
state change); the leave-group handler has no catch — a failed update
emits nothing, leaves the group store unchanged, skips the room-leave
and escapes as an unhandled rejection logged at process level; no
failure path emits to any connection other than the origin. -/
theorem c4_handler_error_policy (ou : OnlineUsers) (groups : List Group)
    (uid gid : String) (dbOk : Bool) (d : SendMessageData) (dg : SendGroupMessageData)
    (dm : MarkReadData) (now : Nat) (msgs : List Message) :
    ((∃ m, Action.save m false ∈ sendMessageHandler ou uid dbOk d) →
      emitsOf (sendMessageHandler ou uid dbOk d) =
        [Emit.errorSignal "Failed to send message"]) ∧
    ((∃ m, Action.save m false ∈ sendGroupMessageHandler groups uid dbOk dg) →
      emitsOf (sendGroupMessageHandler groups uid dbOk dg) =
        [Emit.errorSignal "Failed to send message"]) ∧
    (∀ e ∈ emitsOf (sendMessageHandler ou uid dbOk d),
      e.isFanout = false → e.scope = Scope.origin) ∧
    (∀ e ∈ emitsOf (sendGroupMessageHandler groups uid dbOk dg),
      e.isFanout = false → e.scope = Scope.origin) ∧
    ((markReadHandler ou uid false now dm msgs).2 = [] ∧
      (markReadHandler ou uid false now dm msgs).1 = msgs) ∧
    ((leaveGroupHandler groups uid false gid).emits = [] ∧
      (leaveGroupHandler groups uid false gid).groupsAfter = groups ∧
      (leaveGroupHandler groups uid false gid).leftRoom = false ∧
      (leaveGroupHandler groups uid false gid).unhandledRejection = true) := by
  refine ⟨(direct_dispatch_spec ou uid dbOk d).2.1,
    (group_dispatch_spec groups uid dbOk dg).2.1,
    (direct_dispatch_spec ou uid dbOk d).2.2.2.2.2.2,
    (group_dispatch_spec groups uid dbOk dg).2.2.2.2.2.2,
    ?_, ?_⟩
  · simp [markReadHandler]
  · simp [leaveGroupHandler]

/-- Witness for the amended C4: a failing direct save emits exactly
the scoped error, a failing mark-read emits nothing. -/
theorem c4_handler_error_policy_witness :
    Action.save (newDirectMessage "a" { receiverId := some "b", content := "hi" }) false ∈
      sendMessageHandler [("b", "sb")] "a" false { receiverId := some "b", content := "hi" } ∧
    emitsOf (sendMessageHandler [("b", "sb")] "a" false
        { receiverId := some "b", content := "hi" }) =
      [Emit.errorSignal "Failed to send message"] :=
  ⟨by decide,
    (c4_handler_error_policy [("b", "sb")] [] "a" "g1" false
        { receiverId := some "b", content := "hi" } { groupId := "g1" } ⟨"x"⟩ 0 []).1
      ⟨newDirectMessage "a" { receiverId := some "b", content := "hi" }, by decide⟩⟩

/-- C5 counterexample: a direct intent whose receiverId field is
absent is persisted with receiver null and group null — neither target
set — refuting "exactly one of receiver/group is set ... including
intents whose receiverId field is absent". -/
theorem c5_target_counterexample :
    persisted (sendMessageHandler [] "alice" true { receiverId := none, content := "hi" }) =
      some { sender := "alice", receiver := none, content := "hi" } ∧
    exactlyOneTarget { sender := "alice", receiver := none, content := "hi" } = false := by
  decide

/-- C5 amended: the direct path persists receiver equal to the
intent's receiverId and never sets group — so exactly one target is
set whenever the intent carries a receiverId, and none when it is
absent; the group path always persists group and leaves receiver
unset, so its records always have exactly one target. -/
theorem c5_target_fields (ou : OnlineUsers) (groups : List Group) (uid : String)
    (dbOk : Bool) (d : SendMessageData) (dg : SendGroupMessageData) :
    (∀ m, persisted (sendMessageHandler ou uid dbOk d) = some m →
      m.group = none ∧ m.receiver = d.receiverId ∧
      (d.receiverId.isSome → exactlyOneTarget m = true)) ∧
    (∀ m, persisted (sendGroupMessageHandler groups uid dbOk dg) = some m →
      m.receiver = none ∧ m.group = some dg.groupId ∧ exactlyOneTarget m = true) := by
  constructor
  · intro m hm
    unfold sendMessageHandler at hm
    by_cases hs : (newDirectMessage uid d).saveOk dbOk
    · rcases hr : d.receiverId with _ | rid
      · simp [hs, hr, persisted] at hm
        subst hm
        simp [newDirectMessage, exactlyOneTarget, hr]
      · rcases ho : ouGet ou rid with _ | sid <;>
          · simp [hs, hr, ho, persisted] at hm
            subst hm
            simp [newDirectMessage, exactlyOneTarget, hr]
    · simp [hs, persisted] at hm
  · intro m hm
    unfold sendGroupMessageHandler at hm
    rcases hg : findGroup groups dg.groupId with _ | g
    · simp [hg, persisted] at hm
    · by_cases hmem : uid ∈ g.members
      · by_cases hs : (newGroupMessage uid dg).saveOk dbOk
        · simp [hg, hmem, hs, persisted] at hm
          subst hm
          simp [newGroupMessage, exactlyOneTarget]
        · simp [hg, hmem, hs, persisted] at hm
      · simp [hg, hmem, persisted] at hm

/-- Witness for the amended C5: a persisted direct record with a
present receiverId has exactly one target. -/
theorem c5_target_fields_witness :
    persisted (sendMessageHandler [] "a" true { receiverId := some "b", content := "hi" }) =
      some { sender := "a", receiver := some "b", content := "hi" } ∧
    exactlyOneTarget { sender := "a", receiver := some "b", content := "hi" } = true :=
  ⟨by decide,
    ((c5_target_fields [] [] "a" true { receiverId := some "b", content := "hi" }
        { groupId := "g1" }).1
      { sender := "a", receiver := some "b", content := "hi" } (by decide)).2.2 (by decide)⟩

lemma findGroup_id (groups : List Group) (gid : String) (g : Group)
    (h : findGroup groups gid = some g) : g.id = gid := by
  unfold findGroup at h
  have := List.find?_some h
  simpa using this

lemma findGroup_cons (a : Group) (t : List Group) (gid : String) :
    findGroup (a :: t) gid = if a.id == gid then some a else findGroup t gid := by
  unfold findGroup
  rw [List.find?_cons]
  cases h : (a.id == gid) <;> simp [h]

lemma findGroup_map_update (groups : List Group) (gid : String) (g : Group)
    (f : Group → Group) (hf : ∀ x, (f x).id = x.id)
    (h : findGroup groups gid = some g) :
    findGroup (groups.map fun x => if x.id == gid then f x else x) gid = some (f g) := by
  induction groups with
  | nil => simp [findGroup] at h
  | cons a t ih =>
    rw [List.map_cons]
    by_cases ha : (a.id == gid) = true
    · rw [findGroup_cons a t gid, if_pos ha] at h
      have hag : a = g := by injection h
      subst hag
      rw [if_pos ha, findGroup_cons,
        if_pos (show ((f a).id == gid) = true by rw [hf a]; exact ha)]
    · rw [findGroup_cons a t gid, if_neg ha] at h
      rw [if_neg ha, findGroup_cons, if_neg ha]
      exact ih h

/-- C8 counterexample: the sole admin of a one-member group leaves via
the live-connection leave-group operation; the membership reaches zero
yet the group is not deleted (and its messages, untouched by this
handler, are not deleted either), the leaver even remains in the
admins list — refuting the claim for the live-connection path. -/
theorem c8_leave_group_counterexample :
    leaveGroupHandler [⟨"g1", "G", ["adminU"], ["adminU"]⟩] "adminU" true "g1" =
      { groupsAfter := [⟨"g1", "G", [], ["adminU"]⟩], leftRoom := true, emits := [],
        unhandledRejection := false } := by
  decide

/-- C8 amended: on the REST remove-member route removing any admin —
in particular the sole remaining one — is rejected with the stores
unchanged; on the REST leave route a leaving sole admin has the admin
role reassigned to the first remaining member, and a group reduced to
zero members is deleted together with all its persisted messages; the
live-connection leave-group operation, however, only pulls the user
from the members list — it never deletes a group, never reassigns or
removes an admin role, and touches no messages. -/
theorem c8_member_removal_paths (groups : List Group) (msgs : List Message)
    (requesterId uid gid memberId : String) :
    (∀ g, findGroup groups gid = some g → g.admins.contains memberId = true →
      (removeMemberRoute groups msgs requesterId gid memberId).groupsAfter = groups ∧
      (removeMemberRoute groups msgs requesterId gid memberId).messagesAfter = msgs ∧
      (removeMemberRoute groups msgs requesterId gid memberId).status ≠ 200) ∧
    (∀ g m ms, findGroup groups gid = some g → g.admins = [uid] →
      g.members.contains uid = true →
      g.members.filter (fun x => x != uid) = m :: ms →
      (leaveGroupRoute groups msgs uid gid).status = 200 ∧
      findGroup (leaveGroupRoute groups msgs uid gid).groupsAfter gid =
        some { g with members := m :: ms, admins := [m] }) ∧
    (∀ g, findGroup groups gid = some g → g.members.contains uid = true →
      g.members.filter (fun x => x != uid) = [] →
      (leaveGroupRoute groups msgs uid gid).groupsAfter =
        groups.filter (fun h => h.id != gid) ∧
      (leaveGroupRoute groups msgs uid gid).messagesAfter =
        msgs.filter (fun m => m.group != some gid) ∧
      (leaveGroupRoute groups msgs uid gid).status = 200) ∧
    ((leaveGroupHandler groups uid true gid).groupsAfter.length = groups.length ∧
      (leaveGroupHandler groups uid true gid).groupsAfter.map (fun g => g.admins) =
        groups.map (fun g => g.admins) ∧
      (leaveGroupHandler groups uid true gid).emits = []) := by
  refine ⟨?_, ?_, ?_, ?_, ?_, rfl⟩
  · intro g hg hadm
    have hadm2 : memberId ∈ g.admins := by simpa using hadm
    by_cases h1 : requesterId ∈ g.admins
    · by_cases h2 : memberId ∈ g.members
      · simp [removeMemberRoute, hg, h1, h2, hadm2]
      · simp [removeMemberRoute, hg, h1, h2]
    · simp [removeMemberRoute, hg, h1]
  · intro g m ms hg hadmins hmem hfil
    have hmem2 : uid ∈ g.members := by simpa using hmem
    have hid : g.id = gid := findGroup_id groups gid g hg
    constructor
    · simp [leaveGroupRoute, hg, hmem2, hfil, hadmins]
    · have hga : (leaveGroupRoute groups msgs uid gid).groupsAfter =
          groups.map (fun x =>
            if x.id == gid then { x with members := m :: ms, admins := [m] } else x) := by
        simp [leaveGroupRoute, hg, hmem2, hfil, hadmins]
      rw [hga]
      exact findGroup_map_update groups gid g
        (fun x => { x with members := m :: ms, admins := [m] }) (fun x => rfl) hg
  · intro g hg hmem hfil
    have hmem2 : uid ∈ g.members := by simpa using hmem
    refine ⟨?_, ?_, ?_⟩ <;> simp [leaveGroupRoute, hg, hmem2, hfil]
  · simp [leaveGroupHandler]
  · have hfun : (fun x : Group => (if x.id == gid then pullMember uid x else x).admins) =
        (fun x : Group => x.admins) := by
      funext x
      split <;> rfl
    calc (leaveGroupHandler groups uid true gid).groupsAfter.map (fun g => g.admins)
        = groups.map (fun x =>
            (if x.id == gid then pullMember uid x else x).admins) := by
          simp [leaveGroupHandler, List.map_map, Function.comp]
      _ = groups.map (fun x => x.admins) := by rw [hfun]

/-- Witness for the amended C8: on the REST leave route the sole admin
"a" leaves a two-member group; the admin role moves to "b". -/
theorem c8_member_removal_paths_witness :
    (leaveGroupRoute [⟨"g1", "G", ["a", "b"], ["a"]⟩] [] "a" "g1").status = 200 ∧
    findGroup (leaveGroupRoute [⟨"g1", "G", ["a", "b"], ["a"]⟩] [] "a" "g1").groupsAfter
        "g1" =
      some { (⟨"g1", "G", ["a", "b"], ["a"]⟩ : Group) with members := ["b"], admins := ["b"] } :=
  (c8_member_removal_paths [⟨"g1", "G", ["a", "b"], ["a"]⟩] [] "x" "a" "g1" "y").2.1
    ⟨"g1", "G", ["a", "b"], ["a"]⟩ "b" [] (by decide) (by decide) (by decide) (by decide)

end Chat
